import Mathlib

set_option maxRecDepth 4000

/-! Verification of the tweet-composer agent graph (src/js/src/agent/index.ts)
against its specification. The graph engine itself (state merge, conditional
routing, executor, shared value store) is not among the sources, so it is
modelled from the specification; the state schema, the routing functions, the
prompt computations and the shape of each node's partial update are translated
from the source file. Model invocations are oracles supplied by the
environment, so that every claim about routing, merging and store interaction
is independent of what the models answer. -/

namespace TweetComposer

/-- A chat message: a role string (as produced by the getType method of a
BaseMessage, e.g. human or ai) and a string content. Message contents are
modelled as strings; the source's non-string-content branch in the
conversation renderer therefore does not arise. -/
structure Msg where
  role : String
  content : String
deriving DecidableEq

/-- Modelled from the spec: the UserRules type is imported from
src/hooks/useGraph, which is not among the sources. From the spec scenarios
and the agent's accesses (optional chaining on styleRules and contentRules,
both lists of strings) it is a pair of optional string lists. -/
structure UserRules where
  styleRules : Option (List String)
  contentRules : Option (List String)
deriving DecidableEq

/-- DEFAULT_RULES_STRING (src/js/src/agent/index.ts line 18). -/
def DEFAULT_RULES_STRING : String := "*no rules have been set yet*"

/-- Modelled from the spec: DEFAULT_SYSTEM_RULES is imported from
src/constants, which is not among the sources, so the list of default system
rules is kept as an explicit parameter. The joined string form follows
src line 17. -/
def DEFAULT_SYSTEM_RULES_STRING (defaultSystemRules : List String) : String :=
  "- " ++ String.intercalate "\n- " defaultSystemRules

/-- RULES_PROMPT (src lines 57-65). -/
def RULES_PROMPT : String := "The user has defined two sets of rules. The first set is for style guidelines, and the second set is for content guidelines.\n\n<style_rules>\n{styleRules}\n</style_rules>\n\n<content_rules>\n{contentRules}\n</content_rules>"

/-- SYSTEM_PROMPT (src lines 67-75). -/
def SYSTEM_PROMPT : String := "You are a helpful assistant tasked with thoughtfully fulfilling the requests of the user.\n\nSystem rules:\n\n<system_rules>\n{systemRules}\n</system_rules>\n\n{rulesPrompt}"

/-- Whether the first list is a prefix of the second (on character lists). -/
def startsWithL : List Char → List Char → Bool
  | [], _ => true
  | _ :: _, [] => false
  | p :: ps, c :: cs => p == c && startsWithL ps cs

/-- First-occurrence substring replacement on character lists, following the
semantics of the JavaScript replace method of strings with a string pattern:
only the first occurrence of the pattern is replaced, and the input is
returned unchanged when the pattern does not occur. -/
def replaceFirstL (s pat repl : List Char) : List Char :=
  match s with
  | [] => []
  | c :: cs =>
    if startsWithL pat (c :: cs) then repl ++ (c :: cs).drop pat.length
    else c :: replaceFirstL cs pat repl

/-- JavaScript-style first-occurrence replace on strings. -/
def jsReplace (s pat repl : String) : String :=
  ⟨replaceFirstL s.data pat.data repl.data⟩

/-- Whether the second character list occurs as a contiguous substring of
the first. -/
def containsSubL : List Char → List Char → Bool
  | [], pat => startsWithL pat []
  | c :: cs, pat => startsWithL pat (c :: cs) || containsSubL cs pat

/-- Substring occurrence on strings. -/
def containsSub (s pat : String) : Bool := containsSubL s.data pat.data

/-- The style rules string computed at the top of callModel for one optional
rules list (src lines 86-95): a list contributes only when it is present and
non-empty, in which case its items are joined as a dashed list. -/
def formatRuleList (rules : Option (List String)) : Option String :=
  match rules with
  | some (r :: rs) => some ("- " ++ String.intercalate "\n - " (r :: rs))
  | _ => none

/-- The styleRules local of callModel (src lines 86-91). -/
def callModelStyleRules (userRules : Option UserRules) : Option String :=
  match userRules with
  | none => none
  | some ur => formatRuleList ur.styleRules

/-- The contentRules local of callModel (src lines 87-95). -/
def callModelContentRules (userRules : Option UserRules) : Option String :=
  match userRules with
  | none => none
  | some ur => formatRuleList ur.contentRules

/-- The system prompt string computed by callModel (src lines 97-108). When
neither rules string is set, the source computes a replacement of the
rulesPrompt placeholder by the empty string but discards the result
(src line 107: the replace call is not assigned), so the prompt is used
unchanged in that branch; this embedding reproduces that behaviour. -/
def callModelSystemPrompt (defaultSystemRules : List String)
    (configSystemRules : Option String) (userRules : Option UserRules) : String :=
  let styleRules := callModelStyleRules userRules
  let contentRules := callModelContentRules userRules
  let systemPrompt :=
    jsReplace SYSTEM_PROMPT "{systemRules}"
      (configSystemRules.getD (DEFAULT_SYSTEM_RULES_STRING defaultSystemRules))
  if styleRules.isSome || contentRules.isSome then
    jsReplace
      (jsReplace (jsReplace systemPrompt "{rulesPrompt}" RULES_PROMPT)
        "{styleRules}" (styleRules.getD DEFAULT_RULES_STRING))
      "{contentRules}" (contentRules.getD DEFAULT_RULES_STRING)
  else
    systemPrompt

/-- The conversation renderer (src lines 123-130). -/
def prepareConversation (messages : List Msg) : String :=
  String.intercalate "\n\n"
    ((messages.enum).map fun p =>
      "<" ++ p.2.role ++ "_message index=\x7b" ++ toString p.1 ++ "\x7d>\n" ++
        p.2.content ++ "\n</" ++ p.2.role ++ "_message>")

/-- The system prompt template of generateInsights (src lines 147-193). -/
def INSIGHTS_SYSTEM_PROMPT : String := "This conversation contains back and fourth between an AI assistant, and a user who is using the assistant to generate text.\n\nUser messages which are prefixed with \"REVISED MESSAGE\" contain the entire revised text the user made to the assistant message directly before in the conversation.\nRevisions are made directly by users, so you should pay VERY close attention to every single change made, no matter how small. These should be heavily considered when generating rules.\n\nImportant aspects of revisions to consider:\n- Deletions: What did the user remove? Do you need a rule to avoid adding this in the future?\n- Tone: Did they change the overall tone? Do you need a rule to ensure this tone is maintained?\n- Structure: Did they change the structure of the text? This is important to remember, as it may be a common pattern. \n\nThere also may be additional back and fourth between the user and the assistant.\n\nBased on the conversation, and paying particular attention to any changes made in the \"REVISED MESSAGE\", your job is to create a list of rules to use in the future to help the AI assistant better generate text.\n\nThese rules should be split into two categories:\n1. Style guidelines: These rules should focus on the style, tone, and structure of the text.\n2. Content guidelines: These rules should focus on the content, context, and purpose of the text. Think of this as the business logic or domain-specific rules.\n\nIn your response, include every single rule you want the AI assistant to follow in the future. You should list rules based on a combination of the existing conversation as well as previous rules.\nYou can modify previous rules if you think the new conversation has helpful information, or you can delete old rules if they don\x27t seem relevant, or you can add new rules based on the conversation.\n\nRefrain from adding overly generic rules like \"follow instructions\". These generic rules are already outlined in the \"system_rules\" below.\nInstead, focus your attention on specific details, writing style, or other aspects of the conversation that you think are important for the AI to follow.\n\nThe user has defined the following rules:\n\n<style_rules>\n{styleRules}\n</style_rules>\n\n<content_rules>\n{contentRules}\n</content_rules>\n\nHere is the conversation:\n\n<conversation>\n{conversation}\n</conversation>\n\nAnd here are the default system rules:\n\n<system_rules>\n{systemRules}\n</system_rules>\n\nRespond with updated rules to keep in mind for future conversations. Try to keep the rules you list high signal-to-noise - don\x27t include unnecessary ones, but make sure the ones you do add are descriptive. Combine ones that seem similar and/or contradictory"

/-- The styleRules local of generateInsights (src lines 195-204): the
default-rules marker unless the shared value has a non-empty list. -/
def insightsStyleRules (userRules : Option UserRules) : String :=
  (callModelStyleRules userRules).getD DEFAULT_RULES_STRING

/-- The contentRules local of generateInsights (src lines 195-204). -/
def insightsContentRules (userRules : Option UserRules) : String :=
  (callModelContentRules userRules).getD DEFAULT_RULES_STRING

/-- The prompt sent by generateInsights (src lines 206-213). -/
def generateInsightsPrompt (defaultSystemRules : List String)
    (configSystemRules : Option String) (userRules : Option UserRules)
    (messages : List Msg) : String :=
  jsReplace
    (jsReplace
      (jsReplace
        (jsReplace INSIGHTS_SYSTEM_PROMPT "{systemRules}"
          (configSystemRules.getD (DEFAULT_SYSTEM_RULES_STRING defaultSystemRules)))
        "{styleRules}" (insightsStyleRules userRules))
      "{contentRules}" (insightsContentRules userRules))
    "{conversation}" (prepareConversation messages)

/-- The prompt template of wasContentGenerated (src lines 254-259). -/
def WAS_CONTENT_GENERATED_PROMPT : String := "Given the following conversation between a user and an AI assistant, determine whether or not writing content (think, a blog post, or tweet) was generated by the assistant, or if it\x27s just a conversation.\nIf writing content was generated, set \x27contentGenerated\x27 to true, otherwise set it to false.\n\n<conversation>\n{conversation}\n</conversation>"

/-- The formatted prompt of wasContentGenerated (src lines 268-271). -/
def wasContentGeneratedPrompt (messages : List Msg) : String :=
  jsReplace WAS_CONTENT_GENERATED_PROMPT "{conversation}" (prepareConversation messages)

/-- The configurable mapping of a run configuration, restricted to the keys
the agent reads: the GraphConfig fields (src lines 39-55) plus the
assistant_id partition key used by the shared userRules field (src line 27).
An absent or undefined key is none; the flags are only ever tested for
truthiness, under which undefined and false coincide. -/
structure Configurable where
  systemRules : Option String := none
  hasAcceptedText : Option Bool := none
  onlyGetRules : Option Bool := none
  assistant_id : Option String := none
deriving DecidableEq

/-- A run configuration as consulted by the agent: an optional configurable
mapping (the whole configuration object may itself be absent). -/
structure RunnableConfig where
  configurable : Option Configurable := none
deriving DecidableEq

/-- The effective hasAcceptedText flag (src lines 309-313): the source
spreads the configurable mapping over defaults of false and tests the result
for truthiness, so a missing configuration, missing mapping or missing key
behaves as false. -/
def effHasAcceptedText (config : Option RunnableConfig) : Bool :=
  ((config.bind fun c => c.configurable).bind fun c => c.hasAcceptedText).getD false

/-- The effective onlyGetRules flag (src lines 309-313). -/
def effOnlyGetRules (config : Option RunnableConfig) : Bool :=
  ((config.bind fun c => c.configurable).bind fun c => c.onlyGetRules).getD false

/-- The systemRules configuration value read by the prompt computations. -/
def configSystemRules (config : Option RunnableConfig) : Option String :=
  (config.bind fun c => c.configurable).bind fun c => c.systemRules

/-- The nodes registered in buildGraph (src lines 326-331). -/
inductive NodeName
  | callModel
  | generateInsights
  | wasContentGenerated
  | getRules
deriving DecidableEq

/-- A routing target: a registered node or the END terminal marker. -/
inductive Target
  | node (n : NodeName)
  | endMarker
deriving DecidableEq

/-- The transient per-run state declared by the graph schema (src lines
20-37): messages (append policy, from MessagesAnnotation.spec), and the
replace-policy fields contentGenerated and rules. The shared field userRules
is proxied through the store and not carried in the transient state (spec
section 3). contentGenerated and rules are optional because the schema
declares no defaults for them and the code tests them for truthiness. -/
structure GraphState where
  messages : List Msg := []
  contentGenerated : Option Bool := none
  rules : Option UserRules := none
deriving DecidableEq

/-- shouldCheckContentGeneration (src lines 285-291): END when the
contentGenerated state field is truthy, otherwise the wasContentGenerated
node. -/
def shouldCheckContentGeneration (state : GraphState) : Target :=
  if state.contentGenerated.getD false then .endMarker
  else .node .wasContentGenerated

/-- shouldGenerateInsights (src lines 305-322): the initial router. It
ignores its state argument and reads only the two configuration flags,
each defaulting to false. -/
def shouldGenerateInsights (_state : GraphState) (config : Option RunnableConfig) :
    NodeName :=
  if effOnlyGetRules config then .getRules
  else if effHasAcceptedText config then .generateInsights
  else .callModel

/-- The field names declared by the graph schema (src lines 20-37): messages
from MessagesAnnotation.spec, the shared field userRules, contentGenerated
and rules. -/
def declaredFields : List String :=
  ["messages", "userRules", "contentGenerated", "rules"]

/-- A value occurring in a partial update returned by a node: a message
sequence or a single message (for the append-policy messages field), a
boolean, a userRules value written to the shared store, or an optional
rules value. -/
inductive Value
  | msgList (ms : List Msg)
  | msg (m : Msg)
  | bool (b : Bool)
  | sharedRules (r : UserRules)
  | rulesVal (r : Option UserRules)
deriving DecidableEq

/-- A partial update: field names paired with values, in the order the
node's returned object literal lists them. -/
abbrev Update := List (String × Value)

/-- Modelled from the spec: the error taxonomy of section 7 restricted to
what the merge engine can raise, plus a fuel sentinel for the executor's
recursion bound, which the topology theorems prove unreachable. The partition
key error covers a shared-field write in a run whose configuration carries no
partition key, a case the spec leaves implicit. -/
inductive GraphError
  | unknownField (name : String)
  | missingPartitionKey
  | typeMismatch
  | fuelExhausted
deriving DecidableEq

/-- The Shared Value Store (spec sections 3 and 6): a partitioned key-value
store holding the userRules value per assistant identifier. -/
abbrev Store := String → Option UserRules

/-- The empty store. -/
def emptyStore : Store := fun _ => none

/-- The partition key of a run: the assistant_id configuration field
(src line 27, SharedValue keyed on assistant_id). -/
def partitionKey (config : Option RunnableConfig) : Option String :=
  (config.bind fun c => c.configurable).bind fun c => c.assistant_id

/-- Modelled from the spec: reading the shared userRules field queries the
store under the run's partition key; an absent key or absent entry reads as
the empty default. -/
def readShared (config : Option RunnableConfig) (store : Store) : Option UserRules :=
  match partitionKey config with
  | some k => store k
  | none => none

/-- Modelled from the spec: applying one field of a partial update per the
declared merge policies (spec section 4.1). The messages field appends (a
sequence item by item preserving order, a scalar as a single item),
contentGenerated and rules replace, and the shared field userRules is
forwarded as a write to the store under the partition key. An undeclared
field is an UnknownFieldError; a declared field carrying a value of the
wrong shape is a type mismatch. -/
def applyField (pk : Option String) :
    GraphState × Store → String × Value → Except GraphError (GraphState × Store)
  | (st, store), ("messages", .msgList ms) =>
    .ok ({ st with messages := st.messages ++ ms }, store)
  | (st, store), ("messages", .msg m) =>
    .ok ({ st with messages := st.messages ++ [m] }, store)
  | (st, store), ("contentGenerated", .bool b) =>
    .ok ({ st with contentGenerated := some b }, store)
  | (st, store), ("rules", .rulesVal r) =>
    .ok ({ st with rules := r }, store)
  | (st, store), ("userRules", .sharedRules r) =>
    match pk with
    | some k => .ok (st, fun k2 => if k2 = k then some r else store k2)
    | none => .error .missingPartitionKey
  | (_, _), (f, _) =>
    if declaredFields.contains f then .error .typeMismatch
    else .error (.unknownField f)

/-- Modelled from the spec: left-to-right application of an update's fields,
stopping at the first error. -/
def applyFields (pk : Option String) :
    GraphState × Store → Update → Except GraphError (GraphState × Store)
  | acc, [] => .ok acc
  | acc, fv :: rest =>
    match applyField pk acc fv with
    | .error err => .error err
    | .ok acc2 => applyFields pk acc2 rest

/-- Modelled from the spec: merge of a partial update into the current state
(spec section 4.1). An update touching an undeclared field aborts with
UnknownFieldError before anything is applied, so no part of such an update is
merged; otherwise the update's fields are applied left to right. -/
def mergeUpdate (pk : Option String) (st : GraphState) (store : Store)
    (upd : Update) : Except GraphError (GraphState × Store) :=
  match upd.find? (fun p => !(declaredFields.contains p.1)) with
  | some p => .error (.unknownField p.1)
  | none => applyFields pk (st, store) upd

/-- The external collaborators of a run (spec section 6) together with the
default system rules constant imported from outside the sources: each model
invocation is an oracle from the exact prompt the source builds to the model
output, so every theorem quantifying over the environment holds whatever the
models answer. -/
structure Env where
  chatResponse : String → List Msg → Msg
  insightsResult : String → UserRules
  contentCheckResult : String → Bool
  defaultSystemRules : List String

/-- The partial update returned by each node, from the source bodies:
callModel (src lines 77-121) returns a single-message messages update whose
message is the model response to the computed system prompt and history;
generateInsights (src lines 143-249) returns the structured userRules result
together with the field userAcceptedText set to false (src lines 243-248);
wasContentGenerated (src lines 251-283) returns the structured
contentGenerated result; getRules (src lines 293-297) copies the shared
userRules value into the rules field. -/
def runNode (e : Env) (config : Option RunnableConfig) (store : Store)
    (n : NodeName) (st : GraphState) : Update :=
  match n with
  | .callModel =>
    let sysPrompt := callModelSystemPrompt e.defaultSystemRules
      (configSystemRules config) (readShared config store)
    [("messages", .msgList [e.chatResponse sysPrompt st.messages])]
  | .generateInsights =>
    let result := e.insightsResult
      (generateInsightsPrompt e.defaultSystemRules (configSystemRules config)
        (readShared config store) st.messages)
    [("userRules", .sharedRules result), ("userAcceptedText", .bool false)]
  | .wasContentGenerated =>
    [("contentGenerated",
      .bool (e.contentCheckResult (wasContentGeneratedPrompt st.messages)))]
  | .getRules =>
    [("rules", .rulesVal (readShared config store))]

/-- The outgoing edge of each node (buildGraph, src lines 324-345): callModel
has the conditional edge shouldCheckContentGeneration, and generateInsights,
wasContentGenerated and getRules each have an unconditional edge to END. -/
def nextTarget (n : NodeName) (st : GraphState) : Target :=
  match n with
  | .callModel => shouldCheckContentGeneration st
  | .generateInsights => .endMarker
  | .wasContentGenerated => .endMarker
  | .getRules => .endMarker

/-- Modelled from the spec: the executor (spec section 4.4). It runs the
current node, merges the returned partial update (aborting the run on a merge
error), then follows the node's outgoing edge evaluated on the post-merge
state, until END. Fuel bounds the recursion; the termination theorem shows
the bound is never reached. The returned list records the executed nodes in
order. -/
def exec (e : Env) (config : Option RunnableConfig) :
    Nat → NodeName → GraphState → Store →
      List NodeName × Except GraphError (GraphState × Store)
  | 0, _, _, _ => ([], .error .fuelExhausted)
  | fuel + 1, n, st, store =>
    match mergeUpdate (partitionKey config) st store (runNode e config store n st) with
    | .error err => ([n], .error err)
    | .ok (st2, store2) =>
      match nextTarget n st2 with
      | .endMarker => ([n], .ok (st2, store2))
      | .node n2 =>
        let r := exec e config fuel n2 st2 store2
        (n :: r.1, r.2)

/-- Modelled from the spec: the run invocation interface (spec section 6).
The first node is resolved by the initial router shouldGenerateInsights on
the caller-supplied initial state and configuration, then the executor runs
until END. The fuel 4 exceeds the longest path in the topology. -/
def runGraph (e : Env) (config : Option RunnableConfig) (store : Store)
    (init : GraphState) : List NodeName × Except GraphError (GraphState × Store) :=
  exec e config 4 (shouldGenerateInsights init config) init store

/-- A concrete environment for witnesses: constant oracle answers and a
one-item default rules list. -/
def trivialEnv : Env where
  chatResponse := fun _ _ => ⟨"ai", "ok"⟩
  insightsResult := fun _ => ⟨some [], some []⟩
  contentCheckResult := fun _ => false
  defaultSystemRules := ["Do your best"]

/-- A concrete store for witnesses holding rules under one partition key. -/
def sampleStore : Store :=
  fun k => if k = "asst" then some ⟨some ["be concise"], some []⟩ else none

/-- A concrete non-empty state for witnesses. -/
def stateWithMsg : GraphState := { messages := [⟨"human", "hi"⟩] }

/-- Merging a single sequence-valued messages update appends its items. -/
lemma mergeUpdate_messages (pk : Option String) (st : GraphState) (store : Store)
    (ms : List Msg) :
    mergeUpdate pk st store [("messages", Value.msgList ms)] =
      .ok ({ st with messages := st.messages ++ ms }, store) := rfl

/-- Merging a single scalar messages update appends one item. -/
lemma mergeUpdate_message_scalar (pk : Option String) (st : GraphState) (store : Store)
    (m : Msg) :
    mergeUpdate pk st store [("messages", Value.msg m)] =
      .ok ({ st with messages := st.messages ++ [m] }, store) := rfl

/-- Merging a contentGenerated update replaces the field. -/
lemma mergeUpdate_contentGenerated (pk : Option String) (st : GraphState)
    (store : Store) (b : Bool) :
    mergeUpdate pk st store [("contentGenerated", Value.bool b)] =
      .ok ({ st with contentGenerated := some b }, store) := rfl

/-- Merging a rules update replaces the field. -/
lemma mergeUpdate_rules (pk : Option String) (st : GraphState) (store : Store)
    (r : Option UserRules) :
    mergeUpdate pk st store [("rules", Value.rulesVal r)] =
      .ok ({ st with rules := r }, store) := rfl

/-- Claim C1 (code bug): the merge engine rejects any update touching an
undeclared field with an UnknownFieldError and merges none of it, and the
update returned by generateInsights touches exactly the fields userRules and
userAcceptedText, of which userAcceptedText is not declared by the state
schema, so that update is rejected whole. -/
theorem generateInsights_update_hits_unknown_field :
    (runNode trivialEnv none emptyStore .generateInsights {}).map Prod.fst =
      ["userRules", "userAcceptedText"] ∧
    declaredFields.contains "userAcceptedText" = false ∧
    mergeUpdate none {} emptyStore
        (runNode trivialEnv none emptyStore .generateInsights {}) =
      .error (.unknownField "userAcceptedText") :=
  ⟨rfl, rfl, rfl⟩

/-- Claim C3 (code bug): when the shared userRules value yields neither a
non-empty styleRules list nor a non-empty contentRules list, callModel
discards the result of its replace call (src line 107), so the system prompt
actually sent to the model still contains the literal placeholder text and
equals the template with only the system rules substituted. -/
theorem callModel_prompt_keeps_placeholder :
    containsSub (callModelSystemPrompt ["Do your best"] none none) "{rulesPrompt}" = true ∧
    containsSub (callModelSystemPrompt ["Do your best"] none (some ⟨some [], none⟩))
      "{rulesPrompt}" = true ∧
    callModelSystemPrompt ["Do your best"] none none =
      jsReplace SYSTEM_PROMPT "{systemRules}" (DEFAULT_SYSTEM_RULES_STRING ["Do your best"]) :=
  ⟨rfl, rfl, rfl⟩

/-- Claim C5 (code bug): with hasAcceptedText true (and onlyGetRules unset)
over an empty prior partition, the initial router selects generateInsights
and that node's edge goes to END, but the run aborts while merging the
node's update - which touches the undeclared field userAcceptedText - with
an UnknownFieldError and nothing written to the store, instead of forwarding
the userRules write and terminating at END. -/
theorem acceptedText_run_aborts :
    shouldGenerateInsights {} (some ⟨some ⟨none, some true, none, some "asst"⟩⟩) =
      .generateInsights ∧
    nextTarget .generateInsights {} = .endMarker ∧
    runGraph trivialEnv (some ⟨some ⟨none, some true, none, some "asst"⟩⟩) emptyStore {} =
      ([.generateInsights], .error (.unknownField "userAcceptedText")) :=
  ⟨rfl, rfl, rfl⟩

/-- Claim C7: both routers are deterministic - on equal state and
configuration they return equal candidates; their embeddings are total
functions of state and configuration only, which is the purity the claim
states. -/
theorem routers_pure_deterministic (s1 s2 : GraphState) (c1 c2 : Option RunnableConfig)
    (hs : s1 = s2) (hc : c1 = c2) :
    shouldGenerateInsights s1 c1 = shouldGenerateInsights s2 c2 ∧
    shouldCheckContentGeneration s1 = shouldCheckContentGeneration s2 := by
  subst hs; subst hc; exact ⟨rfl, rfl⟩

/-- Witness for claim C7 at concrete equal inputs. -/
theorem routers_pure_deterministic_witness :
    ({} : GraphState) = {} ∧ (none : Option RunnableConfig) = none ∧
    (shouldGenerateInsights {} none = shouldGenerateInsights {} none ∧
      shouldCheckContentGeneration {} = shouldCheckContentGeneration {}) :=
  ⟨rfl, rfl, routers_pure_deterministic {} {} none none rfl rfl⟩

/-- Claim C8: the initial route ignores the initial state, and is a function
of the two configuration flags alone: configurations with equal effective
onlyGetRules and hasAcceptedText flags route identically. -/
theorem initial_route_state_independent (s1 s2 : GraphState)
    (c c1 c2 : Option RunnableConfig)
    (hO : effOnlyGetRules c1 = effOnlyGetRules c2)
    (hA : effHasAcceptedText c1 = effHasAcceptedText c2) :
    shouldGenerateInsights s1 c = shouldGenerateInsights s2 c ∧
    shouldGenerateInsights s1 c1 = shouldGenerateInsights s1 c2 := by
  exact ⟨rfl, by simp [shouldGenerateInsights, hO, hA]⟩

/-- Witness for claim C8 at two distinct states and two distinct
configurations with equal flags. -/
theorem initial_route_state_independent_witness :
    effOnlyGetRules none = effOnlyGetRules (some ⟨some {}⟩) ∧
    effHasAcceptedText none = effHasAcceptedText (some ⟨some {}⟩) ∧
    (shouldGenerateInsights {} none = shouldGenerateInsights stateWithMsg none ∧
      shouldGenerateInsights {} none = shouldGenerateInsights {} (some ⟨some {}⟩)) :=
  ⟨rfl, rfl,
    initial_route_state_independent {} stateWithMsg none none (some ⟨some {}⟩) rfl rfl⟩

/-- Claim C10: an absent configuration, an absent configurable mapping, or an
absent flag key each behave as the flag being false, and a run invoked with
no configuration at all routes to callModel. -/
theorem missing_flags_default_false (s : GraphState) (c1 c2 : Configurable)
    (h1 : c1.hasAcceptedText = none) (h2 : c2.onlyGetRules = none) :
    effHasAcceptedText none = false ∧
    effOnlyGetRules none = false ∧
    effHasAcceptedText (some ⟨some c1⟩) = false ∧
    effOnlyGetRules (some ⟨some c2⟩) = false ∧
    shouldGenerateInsights s none = .callModel ∧
    shouldGenerateInsights s (some ⟨none⟩) = .callModel := by
  refine ⟨rfl, rfl, ?_, ?_, rfl, rfl⟩
  · simp [effHasAcceptedText, h1]
  · simp [effOnlyGetRules, h2]

/-- Witness for claim C10 at the empty configurable mapping. -/
theorem missing_flags_default_false_witness :
    ({} : Configurable).hasAcceptedText = none ∧
    ({} : Configurable).onlyGetRules = none ∧
    (effHasAcceptedText none = false ∧
      effOnlyGetRules none = false ∧
      effHasAcceptedText (some ⟨some {}⟩) = false ∧
      effOnlyGetRules (some ⟨some {}⟩) = false ∧
      shouldGenerateInsights {} none = .callModel ∧
      shouldGenerateInsights {} (some ⟨none⟩) = .callModel) :=
  ⟨rfl, rfl, missing_flags_default_false {} {} {} rfl rfl⟩

/-- When the effective onlyGetRules flag is set, a run executes exactly the
getRules node and returns the shared value read from the store in the rules
field, with the store untouched. -/
lemma runGraph_getRules (e : Env) (config : Option RunnableConfig) (store : Store)
    (init : GraphState) (hflag : effOnlyGetRules config = true) :
    runGraph e config store init =
      ([.getRules], .ok ({ init with rules := readShared config store }, store)) := by
  have hroute : shouldGenerateInsights init config = .getRules := by
    simp [shouldGenerateInsights, hflag]
  unfold runGraph
  rw [hroute]
  rfl

/-- Claim C2: a run with onlyGetRules set, over a partition key holding the
stored rules value, routes from START directly to getRules, returns a final
state whose rules field is that stored value, and produces a result that is
independent of every model collaborator. -/
theorem onlyGetRules_returns_stored_rules (e e2 : Env) (config : Option RunnableConfig)
    (store : Store) (init : GraphState) (pk : String)
    (hflag : effOnlyGetRules config = true)
    (hpk : partitionKey config = some pk)
    (hstore : store pk = some ⟨some ["be concise"], some []⟩) :
    runGraph e config store init =
      ([.getRules],
        .ok ({ init with rules := some ⟨some ["be concise"], some []⟩ }, store)) ∧
    runGraph e config store init = runGraph e2 config store init := by
  have hread : readShared config store = some ⟨some ["be concise"], some []⟩ := by
    simp [readShared, hpk, hstore]
  constructor
  · rw [runGraph_getRules e config store init hflag, hread]
  · rw [runGraph_getRules e config store init hflag,
      runGraph_getRules e2 config store init hflag]

/-- Witness for claim C2 at a concrete configuration, store and
environment. -/
theorem onlyGetRules_returns_stored_rules_witness :
    effOnlyGetRules (some ⟨some ⟨none, none, some true, some "asst"⟩⟩) = true ∧
    partitionKey (some ⟨some ⟨none, none, some true, some "asst"⟩⟩) = some "asst" ∧
    sampleStore "asst" = some ⟨some ["be concise"], some []⟩ ∧
    runGraph trivialEnv (some ⟨some ⟨none, none, some true, some "asst"⟩⟩) sampleStore {} =
      ([.getRules],
        .ok ({ rules := some ⟨some ["be concise"], some []⟩ }, sampleStore)) :=
  ⟨rfl, rfl, rfl,
    (onlyGetRules_returns_stored_rules trivialEnv trivialEnv
      (some ⟨some ⟨none, none, some true, some "asst"⟩⟩) sampleStore {} "asst"
      rfl rfl rfl).1⟩

/-- The messages contributed by one append-policy update value: a sequence
contributes its items in order, a scalar contributes a single item. -/
def appendItems : Value → List Msg
  | .msgList ms => ms
  | .msg m => [m]
  | _ => []

/-- Sequential application of a sequence of single-field messages updates
through the merge engine. -/
def applyMessageUpdates (pk : Option String) :
    GraphState × Store → List Value → Except GraphError (GraphState × Store)
  | acc, [] => .ok acc
  | acc, v :: vs =>
    match mergeUpdate pk acc.1 acc.2 [("messages", v)] with
    | .error err => .error err
    | .ok acc2 => applyMessageUpdates pk acc2 vs

/-- Claim C6: for every sequence of partial updates to the append-policy
messages field, the merged result is the strict in-order concatenation of
the contributed items onto the prior history - sequence updates append item
by item preserving order, scalar updates append one item, and nothing is
reordered or dropped. -/
theorem messages_append_is_concat (pk : Option String) (st : GraphState)
    (store : Store) (vs : List Value)
    (hv : ∀ v ∈ vs, (∃ ms, v = Value.msgList ms) ∨ ∃ m, v = Value.msg m) :
    applyMessageUpdates pk (st, store) vs =
      .ok ({ st with messages := st.messages ++ (vs.map appendItems).flatten }, store) := by
  induction vs generalizing st with
  | nil => simp [applyMessageUpdates]
  | cons v vs ih =>
    have hrest : ∀ v2 ∈ vs, (∃ ms, v2 = Value.msgList ms) ∨ ∃ m, v2 = Value.msg m :=
      fun v2 h2 => hv v2 (List.mem_cons_of_mem _ h2)
    rcases hv v (List.mem_cons_self _ _) with ⟨ms, rfl⟩ | ⟨m, rfl⟩
    · show applyMessageUpdates pk ({ st with messages := st.messages ++ ms }, store) vs = _
      rw [ih _ hrest]
      simp [appendItems, List.append_assoc]
    · show applyMessageUpdates pk ({ st with messages := st.messages ++ [m] }, store) vs = _
      rw [ih _ hrest]
      simp [appendItems, List.append_assoc]

/-- Witness for claim C6 at a concrete update sequence mixing a sequence
update and a scalar update. -/
theorem messages_append_is_concat_witness :
    (∀ v ∈ [Value.msgList [⟨"human", "hi"⟩, ⟨"ai", "yo"⟩], Value.msg ⟨"human", "bye"⟩],
      (∃ ms, v = Value.msgList ms) ∨ ∃ m, v = Value.msg m) ∧
    applyMessageUpdates none ({}, emptyStore)
        [Value.msgList [⟨"human", "hi"⟩, ⟨"ai", "yo"⟩], Value.msg ⟨"human", "bye"⟩] =
      .ok ({ messages := [⟨"human", "hi"⟩, ⟨"ai", "yo"⟩, ⟨"human", "bye"⟩] }, emptyStore) := by
  constructor
  · intro v hv
    simp only [List.mem_cons, List.not_mem_nil, or_false] at hv
    rcases hv with rfl | rfl
    · exact Or.inl ⟨_, rfl⟩
    · exact Or.inr ⟨_, rfl⟩
  · exact messages_append_is_concat none {} emptyStore _ (by
      intro v hv
      simp only [List.mem_cons, List.not_mem_nil, or_false] at hv
      rcases hv with rfl | rfl
      · exact Or.inl ⟨_, rfl⟩
      · exact Or.inr ⟨_, rfl⟩)

/-- The single-field merge step never raises the executor's fuel sentinel. -/
lemma applyField_not_fuel (pk : Option String) (acc : GraphState × Store)
    (fv : String × Value) :
    applyField pk acc fv ≠ Except.error GraphError.fuelExhausted := by
  obtain ⟨st, store⟩ := acc
  obtain ⟨f, v⟩ := fv
  unfold applyField
  split
  · simp
  · simp
  · simp
  · simp
  · split <;> simp
  · split <;> simp

/-- The merge fold never raises the executor's fuel sentinel. -/
lemma applyFields_not_fuel (pk : Option String) (upd : Update)
    (acc : GraphState × Store) :
    applyFields pk acc upd ≠ Except.error GraphError.fuelExhausted := by
  induction upd generalizing acc with
  | nil => simp [applyFields]
  | cons hd tl ih =>
    have h1 := applyField_not_fuel pk acc hd
    rw [applyFields]
    cases h : applyField pk acc hd with
    | error err =>
      rw [h] at h1
      exact h1
    | ok acc2 => exact ih acc2

/-- The merge engine never raises the executor's fuel sentinel. -/
lemma mergeUpdate_not_fuel (pk : Option String) (st : GraphState) (store : Store)
    (upd : Update) :
    mergeUpdate pk st store upd ≠ Except.error GraphError.fuelExhausted := by
  unfold mergeUpdate
  cases h : upd.find? (fun p => !(declaredFields.contains p.1)) with
  | none => exact applyFields_not_fuel pk upd (st, store)
  | some p => simp

/-- A node whose outgoing edge is unconditionally END completes the run in
exactly one step, and never with the fuel sentinel. -/
lemma exec_endNode (e : Env) (config : Option RunnableConfig) (fuel : Nat)
    (n : NodeName) (st : GraphState) (store : Store)
    (hn : ∀ s, nextTarget n s = Target.endMarker) :
    (exec e config (fuel + 1) n st store).1 = [n] ∧
    (exec e config (fuel + 1) n st store).2 ≠ Except.error GraphError.fuelExhausted := by
  have hm := mergeUpdate_not_fuel (partitionKey config) st store (runNode e config store n st)
  cases h : mergeUpdate (partitionKey config) st store (runNode e config store n st) with
  | error err =>
    rw [h] at hm
    exact ⟨by simp [exec, h], by simpa [exec, h] using hm⟩
  | ok acc =>
    obtain ⟨st2, store2⟩ := acc
    exact ⟨by simp [exec, h, hn st2], by simp [exec, h, hn st2]⟩

/-- A run entering callModel executes at most one further node, and never
ends with the fuel sentinel. -/
lemma exec_callModel_bound (e : Env) (config : Option RunnableConfig) (fuel : Nat)
    (st : GraphState) (store : Store) :
    (exec e config (fuel + 1 + 1) .callModel st store).1.length ≤ 2 ∧
    (exec e config (fuel + 1 + 1) .callModel st store).2 ≠
      Except.error GraphError.fuelExhausted := by
  have hm := mergeUpdate_not_fuel (partitionKey config) st store
    (runNode e config store .callModel st)
  cases h : mergeUpdate (partitionKey config) st store
      (runNode e config store .callModel st) with
  | error err =>
    rw [h] at hm
    exact ⟨by simp [exec, h], by simpa [exec, h] using hm⟩
  | ok acc =>
    obtain ⟨st2, store2⟩ := acc
    cases hb : st2.contentGenerated.getD false with
    | true =>
      exact ⟨by simp [exec, h, nextTarget, shouldCheckContentGeneration, hb],
        by simp [exec, h, nextTarget, shouldCheckContentGeneration, hb]⟩
    | false =>
      have hm2 := mergeUpdate_not_fuel (partitionKey config) st2 store2
        (runNode e config store2 .wasContentGenerated st2)
      cases h3 : mergeUpdate (partitionKey config) st2 store2
          (runNode e config store2 .wasContentGenerated st2) with
      | error err2 =>
        rw [h3] at hm2
        exact ⟨by simp [exec, h, nextTarget, shouldCheckContentGeneration, hb, h3],
          by simpa [exec, h, nextTarget, shouldCheckContentGeneration, hb, h3] using hm2⟩
      | ok acc2 =>
        obtain ⟨st3, store3⟩ := acc2
        exact ⟨by simp [exec, h, nextTarget, shouldCheckContentGeneration, hb, h3],
          by simp [exec, h, nextTarget, shouldCheckContentGeneration, hb, h3]⟩

/-- Claim C9: every run terminates after at most two node executions and
never by running out of executor fuel; the topology is acyclic - getRules,
generateInsights and wasContentGenerated go unconditionally to END, and the
only non-END successor of callModel is wasContentGenerated. -/
theorem run_terminates_within_two_nodes (e : Env) (config : Option RunnableConfig)
    (store : Store) (init : GraphState) :
    (runGraph e config store init).1.length ≤ 2 ∧
    (runGraph e config store init).2 ≠ Except.error GraphError.fuelExhausted ∧
    (∀ st, nextTarget .getRules st = .endMarker) ∧
    (∀ st, nextTarget .generateInsights st = .endMarker) ∧
    (∀ st, nextTarget .wasContentGenerated st = .endMarker) ∧
    (∀ st, nextTarget .callModel st = .endMarker ∨
      nextTarget .callModel st = .node .wasContentGenerated) := by
  have key : ∀ n : NodeName, (exec e config 4 n init store).1.length ≤ 2 ∧
      (exec e config 4 n init store).2 ≠ Except.error GraphError.fuelExhausted := by
    intro n
    cases n with
    | callModel => exact exec_callModel_bound e config 2 init store
    | generateInsights =>
      have h := exec_endNode e config 3 .generateInsights init store (fun _ => rfl)
      exact ⟨by rw [h.1]; simp, h.2⟩
    | wasContentGenerated =>
      have h := exec_endNode e config 3 .wasContentGenerated init store (fun _ => rfl)
      exact ⟨by rw [h.1]; simp, h.2⟩
    | getRules =>
      have h := exec_endNode e config 3 .getRules init store (fun _ => rfl)
      exact ⟨by rw [h.1]; simp, h.2⟩
  refine ⟨(key _).1, (key _).2, fun _ => rfl, fun _ => rfl, fun _ => rfl, ?_⟩
  intro st
  cases hb : st.contentGenerated.getD false with
  | true => exact Or.inl (by simp [nextTarget, shouldCheckContentGeneration, hb])
  | false => exact Or.inr (by simp [nextTarget, shouldCheckContentGeneration, hb])

/-- A run entering callModel with contentGenerated false merges the
messages update and then, because the conditional edge is evaluated on the
post-merge state, routes to wasContentGenerated, which ends the run. -/
lemma exec_callModel_then_check (e : Env) (config : Option RunnableConfig)
    (fuel : Nat) (st : GraphState) (store : Store)
    (hst : st.contentGenerated = some false) :
    (exec e config (fuel + 1 + 1) .callModel st store).1 =
      [.callModel, .wasContentGenerated] := by
  simp [exec, runNode, mergeUpdate_messages, mergeUpdate_contentGenerated,
    nextTarget, shouldCheckContentGeneration, hst]

/-- Claim C4: with the default configuration (both flags effectively false)
the initial router selects callModel; every post-merge state whose
contentGenerated field is false routes the conditional edge after callModel
to wasContentGenerated rather than END; and in a run the conditional edge is
evaluated on the post-merge state, so such a run executes callModel followed
by wasContentGenerated. -/
theorem default_config_routes_to_callModel (e : Env) (config : Option RunnableConfig)
    (store : Store) (init : GraphState)
    (hA : effHasAcceptedText config = false) (hO : effOnlyGetRules config = false) :
    shouldGenerateInsights init config = .callModel ∧
    (∀ st : GraphState, st.contentGenerated = some false →
      shouldCheckContentGeneration st = .node .wasContentGenerated) ∧
    (init.contentGenerated = some false →
      (runGraph e config store init).1 = [.callModel, .wasContentGenerated]) := by
  have hroute : shouldGenerateInsights init config = .callModel := by
    simp [shouldGenerateInsights, hA, hO]
  refine ⟨hroute, ?_, ?_⟩
  · intro st hst
    simp [shouldCheckContentGeneration, hst]
  · intro hinit
    unfold runGraph
    rw [hroute]
    exact exec_callModel_then_check e config 2 init store hinit

/-- Witness for claim C4 at the absent configuration and a concrete initial
state with contentGenerated false. -/
theorem default_config_routes_to_callModel_witness :
    effHasAcceptedText none = false ∧ effOnlyGetRules none = false ∧
    ({ contentGenerated := some false } : GraphState).contentGenerated = some false ∧
    (runGraph trivialEnv none emptyStore { contentGenerated := some false }).1 =
      [.callModel, .wasContentGenerated] :=
  ⟨rfl, rfl, rfl,
    (default_config_routes_to_callModel trivialEnv none emptyStore
      { contentGenerated := some false } rfl rfl).2.2 rfl⟩

end TweetComposer
